import Mathlib

/-!
Shallow embedding of the valkyrris-monitor seismic alert pipeline
(src/monitor/useEarthquakes.ts, src/monitor/useNotifications.ts,
src/monitor/useSupabaseNotifications.ts, src/monitor/useFirebaseNotifications.ts).

JavaScript numbers are modelled as rationals where the code only compares and
copies them, and as reals where the code applies trigonometry (the haversine
geofilter).  JavaScript truthiness on optional fields is modelled explicitly:
a missing field is none, and the empty string / zero are falsy where the code
uses the || default idiom.  Numeric-to-string formatting (toFixed, template
interpolation) is abstracted by toString.
-/

namespace Valkyrris

/-- The canonical Earthquake entity (interface Earthquake, useEarthquakes.ts). -/
structure Earthquake where
  id : String
  magnitude : ℚ
  place : String
  time : ℤ
  depth : ℚ
  latitude : ℚ
  longitude : ℚ
  url : String
deriving DecidableEq

/-- Browser Notification.permission values. -/
inductive NotificationPermission
  | defaultPerm
  | granted
  | denied
deriving DecidableEq

/-- The two UI languages (type Language in i18n.ts). -/
inductive Language
  | en
  | ru
deriving DecidableEq

/-- JavaScript s || d on strings: the empty string is falsy. -/
def jsOrString (s d : String) : String :=
  if s = "" then d else s

/-- One OS-level notification raised by the dispatcher.  The tag of the
browser Notification is the earthquake identifier (tag: quake.id). -/
structure SentNotification where
  quakeId : String
  title : String
  body : String
deriving DecidableEq

/-- The notification built for an urgent quake (useNotifications.ts lines
339-366); toFixed formatting of numbers is abstracted by toString. -/
def mkUrgentNotification (lang : Language) (q : Earthquake) : SentNotification :=
  { quakeId := q.id
    title :=
      (match lang with
        | Language.ru => "⚠️ СРОЧНО: Землетрясение M"
        | Language.en => "⚠️ URGENT: Earthquake M") ++ toString q.magnitude
    body :=
      jsOrString q.place "Unknown location" ++
        (match lang with
          | Language.ru => " | Глубина: "
          | Language.en => " | Depth: ") ++ toString q.depth ++ " km" }

/-- Result of one run of the change-detection effect: the new value of
previousEarthquakesRef, the list newEarthquakes (the delta), and the
notifications sent. -/
structure NotifyResult where
  seen : Finset String
  delta : List Earthquake
  sent : List SentNotification
deriving DecidableEq

/-- One run of the monitor effect in useNotifications.ts (lines 329-387).
The effect returns early (leaving the seen set untouched) when disabled, when
the earthquake list is empty, or when permission is not granted; otherwise it
computes currentIds, filters the previously unseen quakes, notifies for those
with magnitude above 4.5, and REPLACES the seen set with currentIds. -/
def notifyEffect (enabled : Bool) (perm : Option NotificationPermission)
    (lang : Language) (earthquakes : List Earthquake) (seen : Finset String) :
    NotifyResult :=
  if enabled = false ∨ earthquakes = [] ∨ perm ≠ some NotificationPermission.granted then
    { seen := seen, delta := [], sent := [] }
  else
    let currentIds : Finset String := (earthquakes.map Earthquake.id).toFinset
    let newEarthquakes := earthquakes.filter fun q => decide (q.id ∉ seen)
    { seen := currentIds
      delta := newEarthquakes
      sent := newEarthquakes.filterMap fun q =>
        if (4.5 : ℚ) < q.magnitude then some (mkUrgentNotification lang q) else none }

/-- Folding the effect over a sequence of polls, accumulating every
notification sent during the process lifetime. -/
def runPolls (enabled : Bool) (perm : Option NotificationPermission)
    (lang : Language) :
    List (List Earthquake) → Finset String → Finset String × List SentNotification
  | [], seen => (seen, [])
  | b :: rest, seen =>
    let r := notifyEffect enabled perm lang b seen
    let tail := runPolls enabled perm lang rest r.seen
    (tail.1, r.sent ++ tail.2)

/-- Number of notifications in a list whose tag is the given identifier. -/
def alertsFor (id : String) (l : List SentNotification) : ℕ :=
  l.countP fun n => decide (n.quakeId = id)

/-!  AudioAlertEngine: playAlertSound in useNotifications.ts (lines 123-299).
The platform audio facilities are modelled by an environment of booleans
saying which underlying operations succeed; the shared module-level
sharedAudioContext is the explicit state (none = not yet constructed). -/

/-- AudioContext.state. -/
inductive AudioState
  | suspended
  | running
  | closedState
deriving DecidableEq

/-- Which platform audio operations succeed on this run. -/
structure AudioEnv where
  isMobile : Bool
  /-- new AudioContext() does not throw. -/
  ctorOk : Bool
  /-- the state a freshly constructed context starts in. -/
  initialState : AudioState
  /-- ctx.resume() resolves rather than rejects. -/
  resumeOk : Bool
  /-- a resolving resume of a suspended context actually reaches running. -/
  resumeReachesRunning : Bool
  /-- createBuffer / createBufferSource / start do not throw. -/
  playOk : Bool
  /-- the fallback-tier AudioContext construction and WAV encoding succeed. -/
  html5CtorOk : Bool
  /-- audio.play() on the WAV blob resolves. -/
  html5PlayOk : Bool

/-- What the promise returned by playAlertSound does: resolve (recording
whether any custom sound was actually produced) or reject. -/
inductive PlayOutcome
  | resolved (played : Bool)
  | rejected
deriving DecidableEq

/-- One await ctx.resume(): the error case carries the unchanged state. -/
def resumeOnce (env : AudioEnv) (st : AudioState) : Except AudioState AudioState :=
  if env.resumeOk then
    Except.ok (if env.resumeReachesRunning then AudioState.running else AudioState.suspended)
  else Except.error st

/-- The desktop resume block (lines 232-248): resume, and if still suspended
try once more after a delay; both attempts share one try/catch. -/
def resumeTwice (env : AudioEnv) (st : AudioState) : Except AudioState AudioState :=
  match resumeOnce env st with
  | Except.error e => Except.error e
  | Except.ok st1 =>
    if st1 = AudioState.suspended then resumeOnce env st1 else Except.ok st1

/-- Desktop path after the shared context exists (lines 231-295).  A failed
resume is caught, logged and the function returns; a context not running
returns; a throwing playback escapes to the outer catch (rejected here). -/
def playDesktopWithCtx (env : AudioEnv) (st : AudioState) :
    Option AudioState × PlayOutcome :=
  match (if st = AudioState.suspended then resumeTwice env st else Except.ok st) with
  | Except.error stErr => (some stErr, PlayOutcome.resolved false)
  | Except.ok st1 =>
    if st1 ≠ AudioState.running then (some st1, PlayOutcome.resolved false)
    else if env.playOk then (some st1, PlayOutcome.resolved true)
    else (some st1, PlayOutcome.rejected)

/-- Desktop path of playAlertSound (lines 224-295), before the outer catch:
construct the shared context if absent (a throwing constructor escapes),
then resume and play. -/
def playDesktopBody (env : AudioEnv) (ctx : Option AudioState) :
    Option AudioState × PlayOutcome :=
  match ctx with
  | none =>
    if env.ctorOk then playDesktopWithCtx env env.initialState
    else (none, PlayOutcome.rejected)
  | some st => playDesktopWithCtx env st

/-- Mobile Web Audio tier once the shared context exists: probe a single
resume (whose failure is swallowed by an inner catch), and play a beep only
if the context is running. -/
def mobileWebAudioWithCtx (env : AudioEnv) (st : AudioState) :
    Option AudioState × Bool :=
  let st1 :=
    match (if st = AudioState.suspended then resumeOnce env st else Except.ok st) with
    | Except.ok s => s
    | Except.error s => s
  if st1 = AudioState.running then (some st1, env.playOk)
  else (some st1, false)

/-- Mobile Web Audio tier (lines 134-172), all inside its own try/catch:
construct the shared context if needed, then probe resume and play.  Returns
the context state and whether the beep was played; nothing escapes. -/
def mobileWebAudioTier (env : AudioEnv) (ctx : Option AudioState) :
    Option AudioState × Bool :=
  match ctx with
  | none =>
    if env.ctorOk then mobileWebAudioWithCtx env env.initialState
    else (none, false)
  | some st => mobileWebAudioWithCtx env st

/-- Mobile path of playAlertSound (lines 127-222): Web Audio tier, then the
HTML5 Audio WAV fallback tier (lines 175-214, its own try/catch, using a
fresh private context), then return; this path always resolves. -/
def playMobileBody (env : AudioEnv) (ctx : Option AudioState) :
    Option AudioState × PlayOutcome :=
  let tier1 := mobileWebAudioTier env ctx
  if tier1.2 then (tier1.1, PlayOutcome.resolved true)
  else (tier1.1, PlayOutcome.resolved (env.html5CtorOk && env.html5PlayOk))

/-- playAlertSound before its outer catch. -/
def playAlertSoundBody (env : AudioEnv) (ctx : Option AudioState) :
    Option AudioState × PlayOutcome :=
  if env.isMobile then playMobileBody env ctx else playDesktopBody env ctx

/-- playAlertSound (lines 123-299): the whole body sits in one try/catch
whose catch only logs a warning, so every escaping fault resolves silently. -/
def playAlertSound (env : AudioEnv) (ctx : Option AudioState) :
    Option AudioState × PlayOutcome :=
  match playAlertSoundBody env ctx with
  | (c, PlayOutcome.resolved b) => (c, PlayOutcome.resolved b)
  | (c, PlayOutcome.rejected) => (c, PlayOutcome.resolved false)

/-- An environment in which every audio tier fails. -/
def allTiersFail : AudioEnv :=
  { isMobile := false
    ctorOk := false
    initialState := AudioState.suspended
    resumeOk := false
    resumeReachesRunning := false
    playOk := false
    html5CtorOk := false
    html5PlayOk := false }

/-!  RealtimeBridge: broadcast handling in useSupabaseNotifications.ts and
useFirebaseNotifications.ts. -/

/-- A broadcast record from the realtime channel (admin_notifications row in
Supabase, notifications child in Firebase).  Fields the writer may omit are
options; none models null/undefined. -/
structure BroadcastMessage where
  msgId : Option String
  title : String
  body : String
  language : Option String
  sound : Option Bool
deriving DecidableEq

/-- JavaScript truthiness of an optional string field: null, undefined and
the empty string are falsy. -/
def strTruthy : Option String → Bool
  | none => false
  | some s => decide (s ≠ "")

/-- The Supabase language guard (useSupabaseNotifications.ts line 151):
if (lang && lang !== currentLanguage && lang !== all) return. -/
def supabaseLanguageDrop : Option String → String → Bool
  | none, _ => false
  | some l, userLang =>
    if l = "" then false else decide (l ≠ userLang ∧ l ≠ "all")

/-- The Firebase language guard (useFirebaseNotifications.ts line 111):
if (lang && lang !== all && lang !== currentLanguage) return. -/
def firebaseLanguageDrop : Option String → String → Bool
  | none, _ => false
  | some l, userLang =>
    if l = "" then false else decide (l ≠ "all" ∧ l ≠ userLang)

/-- A call to the local alert surface (new Notification(...)). -/
structure AlertSurfaceCall where
  title : String
  body : String
  tag : String
  requireInteraction : Bool
deriving DecidableEq

/-- What a bridge handler does with one incoming record: drop it silently,
or raise the alert surface, with or without invoking the audio path. -/
inductive HandlerAction
  | ignored
  | alert (surface : AlertSurfaceCall) (audioInvoked : Bool)
deriving DecidableEq

/-- The Supabase realtime callback on one inserted row
(useSupabaseNotifications.ts lines 136-231): language guard, notification
support check, permission check, then always the audio path followed by the
alert surface with requireInteraction and a 15 s auto close. -/
def supabaseOnMessage (msg : BroadcastMessage) (userLang : String)
    (supported : Bool) (permission : NotificationPermission) : HandlerAction :=
  if supabaseLanguageDrop msg.language userLang then HandlerAction.ignored
  else if supported = false then HandlerAction.ignored
  else if permission ≠ NotificationPermission.granted then HandlerAction.ignored
  else
    HandlerAction.alert
      { title := msg.title
        body := msg.body
        tag := "admin-notification-" ++ (msg.msgId.getD "")
        requireInteraction := true }
      true

/-- The Firebase onValue callback on one snapshot
(useFirebaseNotifications.ts lines 92-167).  The snapshot value is none when
the notifications node is empty; otherwise it is the object entries in key
order.  Only the value stored under the LAST key is looked up and considered;
the sound flag gates the audio path (sound !== false). -/
def firebaseOnValue (snapshot : Option (List (String × BroadcastMessage)))
    (userLang : String) (supported : Bool)
    (permission : NotificationPermission) (now : ℤ) : HandlerAction :=
  match snapshot with
  | none => HandlerAction.ignored
  | some entries =>
    match (entries.map Prod.fst).getLast? with
    | none => HandlerAction.ignored
    | some latestKey =>
      match entries.lookup latestKey with
      | none => HandlerAction.ignored
      | some msg =>
        if firebaseLanguageDrop msg.language userLang then HandlerAction.ignored
        else if supported = false then HandlerAction.ignored
        else if permission ≠ NotificationPermission.granted then HandlerAction.ignored
        else
          HandlerAction.alert
            { title := jsOrString msg.title "Earthquake Monitor"
              body := msg.body
              tag := "earthquake-monitor-" ++
                (match msg.msgId with
                  | some i => if i = "" then toString now else i
                  | none => toString now)
              requireInteraction := false }
            (decide (msg.sound ≠ some false))

/-- Whether the handler reached the alert surface at all. -/
def HandlerAction.delivers : HandlerAction → Bool
  | HandlerAction.ignored => false
  | HandlerAction.alert _ _ => true

/-- Whether the handler raised the alert surface AND invoked the audio path. -/
def HandlerAction.alertAndAudio : HandlerAction → Bool
  | HandlerAction.ignored => false
  | HandlerAction.alert _ audio => audio

/-!  The Supabase subscription guard (useSupabaseNotifications.ts lines
105-109 and 233-247).  subscriptionRef.current is the option; the counter of
channels created lets no-op claims be stated. -/

/-- Channel status values delivered to the subscribe callback. -/
inductive ChannelStatus
  | subscribedOk
  | channelError
  | timedOut
  | closedStatus
deriving DecidableEq

/-- The guard state of the bridge. -/
structure BridgeState where
  subscription : Option ℕ
  channelsCreated : ℕ
deriving DecidableEq

/-- One run of the subscription effect (lines 99-254): bail out when
disabled or the client is missing; bail out when subscriptionRef.current is
already set (the idempotence guard); otherwise create one channel and store
it in the ref. -/
def subscribeEffect (enabled hasClient : Bool) (st : BridgeState) : BridgeState :=
  if enabled = false ∨ hasClient = false then st
  else if st.subscription.isSome then st
  else { subscription := some st.channelsCreated
         channelsCreated := st.channelsCreated + 1 }

/-- The status callback (lines 233-247): only the CLOSED status resets the
guard; SUBSCRIBED, CHANNEL_ERROR and TIMED_OUT are logged and leave it. -/
def onStatus (st : BridgeState) (status : ChannelStatus) : BridgeState :=
  match status with
  | ChannelStatus.closedStatus => { st with subscription := none }
  | _ => st

/-!  GeoFilter: the inline haversine in useEarthquakes.ts lines 120-133.
Trigonometry forces real numbers here; Math.atan2 is spelled out with the
standard quadrant case split. -/

/-- Math.atan2(y, x) (ignoring signed zeros). -/
noncomputable def atan2 (y x : ℝ) : ℝ :=
  if 0 < x then Real.arctan (y / x)
  else if x < 0 then
    if 0 ≤ y then Real.arctan (y / x) + Real.pi else Real.arctan (y / x) - Real.pi
  else
    if 0 < y then Real.pi / 2 else if y < 0 then -(Real.pi / 2) else 0

/-- The haversine intermediate a (line 125). -/
noncomputable def havA (lat1 lon1 lat2 lon2 : ℝ) : ℝ :=
  let dLat := (lat2 - lat1) * Real.pi / 180
  let dLon := (lon2 - lon1) * Real.pi / 180
  Real.sin (dLat / 2) * Real.sin (dLat / 2) +
    Real.cos (lat1 * Real.pi / 180) * Real.cos (lat2 * Real.pi / 180) *
      (Real.sin (dLon / 2) * Real.sin (dLon / 2))

/-- The haversine great-circle distance with Earth radius 6371 km
(lines 122-130). -/
noncomputable def haversineDistance (lat1 lon1 lat2 lon2 : ℝ) : ℝ :=
  let R : ℝ := 6371
  let a := havA lat1 lon1 lat2 lon2
  let c := 2 * atan2 (Real.sqrt a) (Real.sqrt (1 - a))
  R * c

/-- Region membership: distance from the center at most the radius
(line 132, boundary inclusive). -/
noncomputable def withinRadius (centerLat centerLon pLat pLon radiusKm : ℝ) : Prop :=
  haversineDistance centerLat centerLon pLat pLon ≤ radiusKm

/-!  EventNormalizer and FeedPoller: fetchEarthquakesFn in useEarthquakes.ts. -/

/-- The properties block of a raw feed record; every field may be absent. -/
structure RawProperties where
  mag : Option ℚ
  place : Option String
  time : Option ℤ
  url : Option String
deriving DecidableEq

/-- The geometry block of a raw feed record. -/
structure RawGeometry where
  coordinates : Option (List ℚ)
deriving DecidableEq

/-- One raw feed record (feature). -/
structure RawFeature where
  id : Option String
  properties : Option RawProperties
  geometry : Option RawGeometry
deriving DecidableEq

/-- The well-formedness filter (line 102): feature.properties,
feature.geometry and feature.geometry.coordinates must all be truthy.  An
array is truthy in JavaScript whatever its length, so only the presence of
the coordinates field is checked. -/
def featureWellFormed (f : RawFeature) : Bool :=
  f.properties.isSome &&
    (match f.geometry with
      | some g => g.coordinates.isSome
      | none => false)

/-- Template interpolation of a possibly-undefined integer field. -/
def jsShowInt : Option ℤ → String
  | some t => toString t
  | none => "undefined"

/-- Template interpolation of a possibly-undefined numeric list element. -/
def jsShowRat : Option ℚ → String
  | some q => toString q
  | none => "undefined"

/-- JavaScript o || d on an optional number: undefined and 0 are falsy. -/
def jsOrRat (o : Option ℚ) (d : ℚ) : ℚ :=
  match o with
  | some q => if q = 0 then d else q
  | none => d

/-- JavaScript o || d on an optional epoch-millis value. -/
def jsOrInt (o : Option ℤ) (d : ℤ) : ℤ :=
  match o with
  | some t => if t = 0 then d else t
  | none => d

/-- JavaScript o || d on an optional string. -/
def jsOrStr (o : Option String) (d : String) : String :=
  match o with
  | some s => if s = "" then d else s
  | none => d

/-- The synthetic identifier built when the feed omits one (line 104):
quake-(raw properties.time)-(coordinates 0)-(coordinates 1), with raw,
undefaulted field values interpolated. -/
def syntheticId (rawTime : Option ℤ) (coords : List ℚ) : String :=
  "quake-" ++ jsShowInt rawTime ++ "-" ++ jsShowRat (coords.get? 0) ++ "-" ++
    jsShowRat (coords.get? 1)

/-- The map of one well-formed feature to an Earthquake (lines 103-112).
Latitude and longitude have no || default in the source (a short coordinate
list would propagate undefined); they are modelled with getD 0, which agrees
with the source whenever both coordinates are present. -/
def normalizeFeature (now : ℤ) (props : RawProperties) (coords : List ℚ)
    (fid : Option String) : Earthquake :=
  { id := jsOrStr fid (syntheticId props.time coords)
    magnitude := jsOrRat props.mag 0
    place := jsOrStr props.place "Unknown"
    time := jsOrInt props.time now
    depth := jsOrRat (coords.get? 2) 0
    latitude := coords.getD 1 0
    longitude := coords.getD 0 0
    url := jsOrStr props.url "" }

/-- Normalization of one feature that passed the filter.  The second branch
is unreachable after featureWellFormed. -/
def normalizeRaw (now : ℤ) (f : RawFeature) : Earthquake :=
  match f.properties, f.geometry with
  | some props, some geo => normalizeFeature now props (geo.coordinates.getD []) f.id
  | _, _ => normalizeFeature now ⟨none, none, none, none⟩ [] f.id

/-- The whole batch transform (lines 101-112): filter then map. -/
def normalizeBatch (now : ℤ) (features : List RawFeature) : List Earthquake :=
  (features.filter featureWellFormed).map (normalizeRaw now)

/-- The geofilter predicate applied client-side under Strategy A
(lines 120-133): within 1500 km of 31.0 N 35.0 E and at or above the
magnitude floor. -/
noncomputable def geoFilterPass (minMagnitude : ℚ) (q : Earthquake) : Prop :=
  haversineDistance 31 35 (q.latitude : ℝ) (q.longitude : ℝ) ≤ 1500 ∧
    minMagnitude ≤ q.magnitude

open Classical in
/-- The client-side region filter over the normalized batch. -/
noncomputable def applyGeoFilter (minMagnitude : ℚ) (l : List Earthquake) :
    List Earthquake :=
  l.filter fun q => decide (geoFilterPass minMagnitude q)

/-- Insertion of one quake into a list kept most-recent-first. -/
def insertByTimeDesc (q : Earthquake) : List Earthquake → List Earthquake
  | [] => [q]
  | x :: xs => if x.time ≤ q.time then q :: x :: xs else x :: insertByTimeDesc q xs

/-- The sort by occurrence time descending (line 137). -/
def sortByTimeDesc (l : List Earthquake) : List Earthquake :=
  l.foldr insertByTimeDesc []

/-- The selected time window. -/
inductive TimeRange
  | h24
  | d7
  | d30
deriving DecidableEq

/-- The poller configuration relevant to one fetch. -/
structure FetchConfig where
  timeRange : TimeRange
  minMagnitude : ℚ
deriving DecidableEq

/-- The parsed response body: the features field is none when absent or not
an array (line 94). -/
structure FeedBody where
  features : Option (List RawFeature)
deriving DecidableEq

/-- How the network round trip of one poll cycle went. -/
inductive FetchOutcome
  | transportError (msg : String)
  | httpError (statusText : String)
  | parseError (msg : String)
  | okBody (body : FeedBody)
deriving DecidableEq

/-- Whether the outcome is one of the three failure modes. -/
def FetchOutcome.isFailure : FetchOutcome → Bool
  | FetchOutcome.transportError _ => true
  | FetchOutcome.httpError _ => true
  | FetchOutcome.parseError _ => true
  | FetchOutcome.okBody _ => false

/-- The caller-visible state held by useEarthquakes. -/
structure PollState where
  earthquakes : List Earthquake
  loading : Bool
  error : Option String
deriving DecidableEq

/-- One run of fetchEarthquakesFn (useEarthquakes.ts lines 35-151).  The
body sets loading and clears the error, fetches (both strategies share the
same failure handling), normalizes, geofilters under Strategy A
(minMagnitude at most 0.1), sorts, and stores; the catch stores the error
message and leaves the earthquake list alone; finally clears loading.  An
absent or non-array features field clears the list and returns with no
error set (lines 94-98). -/
noncomputable def fetchEarthquakesFn (cfg : FetchConfig) (outcome : FetchOutcome)
    (now : ℤ) (st : PollState) : PollState :=
  let st0 : PollState := { st with loading := true, error := none }
  match outcome with
  | FetchOutcome.transportError m => { st0 with error := some m, loading := false }
  | FetchOutcome.httpError statusText =>
    { st0 with error := some ("API error: " ++ statusText), loading := false }
  | FetchOutcome.parseError m => { st0 with error := some m, loading := false }
  | FetchOutcome.okBody body =>
    match body.features with
    | none => { st0 with earthquakes := [], loading := false }
    | some features =>
      let data := normalizeBatch now features
      let data1 :=
        if cfg.minMagnitude ≤ 1 / 10 then applyGeoFilter cfg.minMagnitude data
        else data
      { st0 with earthquakes := sortByTimeDesc data1, loading := false }

/-!  Concrete events used by witnesses and counterexamples. -/

/-- A magnitude 4.6 event, above the urgent threshold. -/
def sampleUrgentQuake : Earthquake :=
  { id := "eq1", magnitude := 4.6, place := "X", time := 0, depth := 10,
    latitude := 0, longitude := 0, url := "" }

/-- A magnitude 1 event, below the urgent threshold. -/
def sampleMinorQuake : Earthquake :=
  { id := "eq2", magnitude := 1, place := "Y", time := 1, depth := 5,
    latitude := 0, longitude := 0, url := "" }

/-- A well-formed raw record with no optional field present. -/
def sampleBareFeature : RawFeature :=
  { id := none
    properties := some { mag := none, place := none, time := none, url := none }
    geometry := some { coordinates := some [1, 2] } }

/-- A record with neither properties nor geometry. -/
def sampleBrokenFeature : RawFeature :=
  { id := some "broken", properties := none, geometry := none }

lemma sampleUrgentQuake_mag : (4.5 : ℚ) < sampleUrgentQuake.magnitude := by
  norm_num [sampleUrgentQuake]

/-!  Helper lemmas about the dispatch pipeline. -/

/-- A filterMap whose function is a guarded some is a filter then a map. -/
lemma filterMap_guarded {α β : Type} (P : α → Prop) [DecidablePred P] (h : α → β) :
    ∀ l : List α,
      (l.filterMap fun a => if P a then some (h a) else none) =
        (l.filter fun a => decide (P a)).map h
  | [] => rfl
  | x :: t => by
    by_cases hx : P x <;>
      simp [List.filterMap_cons, List.filter_cons, hx, filterMap_guarded P h t]

/-- The number of alerts the dispatch pipeline emits for one identifier,
as a count over the incoming batch. -/
lemma alertsFor_pipeline (lang : Language) (seen : Finset String) (idv : String)
    (qs : List Earthquake) :
    alertsFor idv
      ((qs.filter fun q => decide (q.id ∉ seen)).filterMap fun q =>
        if (4.5 : ℚ) < q.magnitude then some (mkUrgentNotification lang q) else none) =
    qs.countP fun q =>
      decide (q.id = idv) && (decide (q.id ∉ seen) && decide ((4.5 : ℚ) < q.magnitude)) := by
  rw [alertsFor,
    filterMap_guarded (fun q : Earthquake => (4.5 : ℚ) < q.magnitude) (mkUrgentNotification lang),
    List.countP_map, List.countP_filter, List.countP_filter]
  apply List.countP_congr
  intro q _
  simp [Function.comp, mkUrgentNotification, Bool.and_comm, Bool.and_assoc, Bool.and_left_comm]

/-- In a batch with pairwise distinct identifiers, the count of members
satisfying a predicate together with a fixed identifier is one as soon as one
member with that identifier satisfies it. -/
lemma countP_eq_one_of_nodup_id (idv : String) (P : Earthquake → Bool) :
    ∀ qs : List Earthquake, (qs.map Earthquake.id).Nodup →
      ∀ q, q ∈ qs → q.id = idv → P q = true →
      (qs.countP fun x => decide (x.id = idv) && P x) = 1
  | [], _, q, hq, _, _ => absurd hq (List.not_mem_nil q)
  | x :: t, hnd, q, hq, hid, hP => by
    rw [List.map_cons, List.nodup_cons] at hnd
    rcases List.mem_cons.mp hq with rfl | hqt
    · rw [List.countP_cons]
      have h0 : (t.countP fun x => decide (x.id = idv) && P x) = 0 := by
        rw [List.countP_eq_zero]
        intro y hy hpy
        apply hnd.1
        have hyid : y.id = idv := by
          by_contra hne
          simp [hne] at hpy
        rw [hid, ← hyid]
        exact List.mem_map_of_mem Earthquake.id hy
      simp [h0, hid, hP]
    · have hxid : x.id ≠ idv := by
        intro hx
        apply hnd.1
        rw [hx, ← hid]
        exact List.mem_map_of_mem Earthquake.id hqt
      rw [List.countP_cons, countP_eq_one_of_nodup_id idv P t hnd.2 q hqt hid hP]
      simp [hxid]

/-- A second identical run of the effect yields an empty delta and sends
nothing: after the first run every identifier of the batch is in the seen
set. -/
lemma notifyEffect_second_run (e : Bool) (p : Option NotificationPermission)
    (lang : Language) (qs : List Earthquake) (seen : Finset String) :
    (notifyEffect e p lang qs (notifyEffect e p lang qs seen).seen).delta = [] ∧
    (notifyEffect e p lang qs (notifyEffect e p lang qs seen).seen).sent = [] := by
  by_cases h : e = false ∨ qs = [] ∨ p ≠ some NotificationPermission.granted
  · simp [notifyEffect, h]
  · simp only [notifyEffect, h, if_false]
    constructor <;> simp
    · intro a ha
      exact ⟨a, ha, rfl⟩
    · intro a ha hno
      exact absurd rfl (hno a ha)

/-- C1 counterexample: with permission granted, processing the batch
[sampleMinorQuake] from the seen set with members a1 and a2 REPLACES the seen
set by the singleton of the new identifier instead of taking the union, so
the seen set is not the claimed union and its size decreases; and with
permission denied the update is skipped entirely (the seen set stays empty
instead of becoming the current identifier set). -/
theorem changeDetector_union_counterexample :
    (notifyEffect true (some NotificationPermission.granted) Language.en
        [sampleMinorQuake] {"a1", "a2"}).seen ≠
      ({"a1", "a2"} : Finset String) ∪ {"eq2"} ∧
    (notifyEffect true (some NotificationPermission.granted) Language.en
        [sampleMinorQuake] {"a1", "a2"}).seen.card <
      ({"a1", "a2"} : Finset String).card ∧
    (notifyEffect true (some NotificationPermission.denied) Language.en
        [sampleMinorQuake] ∅).seen ≠ ({"eq2"} : Finset String) := by
  refine ⟨?_, ?_, ?_⟩ <;> decide

/-- C1 (amended): when the effect runs at all (enabled, a nonempty poll
result, permission granted) the change-detection step replaces the SeenSet
with exactly the identifier set of the current poll, and the delta is
exactly the current events whose identifier is absent from the previous
SeenSet; when disabled, the poll is empty, or permission is not granted,
the step is skipped and the SeenSet is left unchanged. -/
theorem changeDetector_replaces_seen (enabled : Bool)
    (perm : Option NotificationPermission) (lang : Language)
    (qs : List Earthquake) (seen : Finset String) :
    (enabled = true → perm = some NotificationPermission.granted → qs ≠ [] →
      (notifyEffect enabled perm lang qs seen).seen = (qs.map Earthquake.id).toFinset ∧
      (notifyEffect enabled perm lang qs seen).delta =
        (qs.filter fun q => decide (q.id ∉ seen))) ∧
    ((enabled = false ∨ qs = [] ∨ perm ≠ some NotificationPermission.granted) →
      notifyEffect enabled perm lang qs seen =
        { seen := seen, delta := [], sent := [] }) := by
  constructor
  · intro he hp hq
    rw [notifyEffect, if_neg (by simp [he, hp, hq])]
    exact ⟨rfl, rfl⟩
  · intro h
    rw [notifyEffect, if_pos h]

/-- C1 witness: the amended theorem evaluated on a concrete nonempty poll
with permission granted. -/
theorem changeDetector_replaces_seen_witness :
    (notifyEffect true (some NotificationPermission.granted) Language.en
        [sampleMinorQuake] {"a1"}).seen =
      ([sampleMinorQuake].map Earthquake.id).toFinset ∧
    (notifyEffect true (some NotificationPermission.granted) Language.en
        [sampleMinorQuake] {"a1"}).delta =
      ([sampleMinorQuake].filter fun q => decide (q.id ∉ ({"a1"} : Finset String))) :=
  (changeDetector_replaces_seen true (some NotificationPermission.granted) Language.en
      [sampleMinorQuake] {"a1"}).1 rfl rfl (by decide)

/-- C2 counterexample: three consecutive polls deliver the urgent event eq1,
then a poll without it, then eq1 again; because the seen set was replaced
rather than grown, the dispatcher raises a SECOND alert for eq1 within one
process lifetime. -/
theorem dispatcher_duplicate_alert_counterexample :
    ((runPolls true (some NotificationPermission.granted) Language.en
        [[sampleUrgentQuake], [sampleMinorQuake], [sampleUrgentQuake]] ∅).2.map
      SentNotification.quakeId) = ["eq1", "eq1"] := by
  norm_num [runPolls, notifyEffect, sampleUrgentQuake, sampleMinorQuake,
    mkUrgentNotification, List.filter_cons, List.filterMap_cons,
    show ("eq2" : String) ≠ "eq1" by decide, show ("eq1" : String) ≠ "eq2" by decide]

/-- C2 (amended): within one processed batch with pairwise distinct
identifiers, a not-yet-seen event above the urgent threshold with permission
granted yields exactly one alert for its identifier, and redelivering the
identical batch immediately afterwards produces no second alert; a second
alert is excluded only while the identifier stays in the SeenSet, not for
the whole process lifetime. -/
theorem dispatcher_alert_once (lang : Language) (qs : List Earthquake)
    (seen : Finset String) (q : Earthquake) (hmem : q ∈ qs)
    (hmag : (4.5 : ℚ) < q.magnitude) (hnew : q.id ∉ seen)
    (hnodup : (qs.map Earthquake.id).Nodup) :
    alertsFor q.id
        (notifyEffect true (some NotificationPermission.granted) lang qs seen).sent = 1 ∧
    (notifyEffect true (some NotificationPermission.granted) lang qs
        (notifyEffect true (some NotificationPermission.granted) lang qs seen).seen).sent
      = [] := by
  constructor
  · have hqs : qs ≠ [] := by
      rintro rfl
      exact absurd hmem (List.not_mem_nil q)
    rw [notifyEffect, if_neg (by simp [hqs])]
    rw [alertsFor_pipeline]
    exact countP_eq_one_of_nodup_id q.id
      (fun x => decide (x.id ∉ seen) && decide ((4.5 : ℚ) < x.magnitude))
      qs hnodup q hmem rfl (by simp [hnew, hmag])
  · exact (notifyEffect_second_run true (some NotificationPermission.granted)
      lang qs seen).2

/-- C2 witness: the amended theorem evaluated on a concrete batch holding
the urgent event eq1 and the minor event eq2, starting from an empty seen
set. -/
theorem dispatcher_alert_once_witness :
    alertsFor sampleUrgentQuake.id
        (notifyEffect true (some NotificationPermission.granted) Language.en
          [sampleUrgentQuake, sampleMinorQuake] ∅).sent = 1 ∧
    (notifyEffect true (some NotificationPermission.granted) Language.en
        [sampleUrgentQuake, sampleMinorQuake]
        (notifyEffect true (some NotificationPermission.granted) Language.en
          [sampleUrgentQuake, sampleMinorQuake] ∅).seen).sent = [] :=
  dispatcher_alert_once Language.en [sampleUrgentQuake, sampleMinorQuake] ∅
    sampleUrgentQuake (List.mem_cons_self sampleUrgentQuake [sampleMinorQuake])
    sampleUrgentQuake_mag (by decide) (by decide)

/-- C3: playAlertSound resolves for every environment and every prior state
of the shared context, whatever combination of tiers fails, and in the
environment where every tier fails it resolves having produced no sound. -/
theorem audioEngine_play_always_resolves :
    (∀ (env : AudioEnv) (ctx : Option AudioState),
        (playAlertSound env ctx).2 ≠ PlayOutcome.rejected ∧
        ∃ b, (playAlertSound env ctx).2 = PlayOutcome.resolved b) ∧
    (playAlertSound allTiersFail none).2 = PlayOutcome.resolved false := by
  constructor
  · intro env ctx
    rcases h : playAlertSoundBody env ctx with ⟨c, o⟩
    cases o <;> simp [playAlertSound, h]
  · rfl

/-- C8 counterexample: a bridge holding a live subscription receives the
TIMED_OUT status; the guard is NOT reset (the claim says a timeout resets
it) and the next lifecycle pass is still a no-op, creating no channel. -/
theorem realtimeBridge_timeout_guard_counterexample :
    (onStatus { subscription := some 0, channelsCreated := 1 }
        ChannelStatus.timedOut).subscription = some 0 ∧
    subscribeEffect true true
        (onStatus { subscription := some 0, channelsCreated := 1 }
          ChannelStatus.timedOut) =
      { subscription := some 0, channelsCreated := 1 } := by
  decide

/-- C8 (amended): a subscribe attempt while a subscription is active is a
no-op; the guard is reset by the CLOSED status only, after which the next
enabled lifecycle pass creates a fresh channel; the TIMED_OUT status is
logged and leaves the state untouched. -/
theorem realtimeBridge_guard_amended (st : BridgeState) (e c : Bool) :
    (st.subscription.isSome = true → subscribeEffect e c st = st) ∧
    (onStatus st ChannelStatus.closedStatus).subscription = none ∧
    (subscribeEffect true true (onStatus st ChannelStatus.closedStatus)).channelsCreated =
      st.channelsCreated + 1 ∧
    onStatus st ChannelStatus.timedOut = st := by
  refine ⟨?_, rfl, ?_, rfl⟩
  · intro h
    simp [subscribeEffect, h]
  · rfl

/-- The element getLast? returns is a member of the list. -/
lemma mem_of_getLast?_eq {α : Type} :
    ∀ {l : List α} {x : α}, l.getLast? = some x → x ∈ l
  | [], _, h => by simp at h
  | [a], x, h => by
    have ha : a = x := by simpa using h
    rw [← ha]
    exact List.mem_singleton_self a
  | a :: b :: t, x, h => by
    rw [List.getLast?_cons_cons] at h
    exact List.mem_cons_of_mem a (mem_of_getLast?_eq h)

/-- When the keys are pairwise distinct, looking up the last key of an
association list yields the last value. -/
lemma lookup_getLast_of_nodup {β : Type} :
    ∀ (l : List (String × β)) (k : String) (m : β),
      l.getLast? = some (k, m) → (l.map Prod.fst).Nodup → l.lookup k = some m
  | [], k, m, hlast, _ => by simp at hlast
  | a :: t, k, m, hlast, hnd => by
    rw [List.map_cons, List.nodup_cons] at hnd
    cases t with
    | nil =>
      have ha : a = (k, m) := by simpa using hlast
      subst ha
      simp [List.lookup]
    | cons b t2 =>
      rw [List.getLast?_cons_cons] at hlast
      have hmem : (k, m) ∈ b :: t2 := mem_of_getLast?_eq hlast
      have hkne : a.1 ≠ k := by
        intro hak
        apply hnd.1
        rw [hak]
        exact List.mem_map_of_mem Prod.fst hmem
      obtain ⟨a1, a2⟩ := a
      have hbeq : (k == a1) = false := by
        simp only [beq_eq_false_iff_ne]
        exact fun hk => hkne (by simpa using hk.symm)
      rw [List.lookup, hbeq]
      exact lookup_getLast_of_nodup (b :: t2) k m hlast hnd.2

/-- C4: given notification support, granted permission, a present non-empty
language tag and (on the Firebase bridge) a sound flag other than false, a
broadcast message has its alert surface and audio path invoked iff its tag
is all or equals the viewer language; when the tag is some other language
both bridges drop the message with no action at all. -/
theorem broadcast_language_filter (msg : BroadcastMessage) (userLang l k : String)
    (now : ℤ) (hl : msg.language = some l) (hne : l ≠ "")
    (hs : msg.sound ≠ some false) :
    ((supabaseOnMessage msg userLang true NotificationPermission.granted).alertAndAudio
        = true ↔ (l = "all" ∨ l = userLang)) ∧
    ((firebaseOnValue (some [(k, msg)]) userLang true NotificationPermission.granted
        now).alertAndAudio = true ↔ (l = "all" ∨ l = userLang)) ∧
    (¬ (l = "all" ∨ l = userLang) →
      supabaseOnMessage msg userLang true NotificationPermission.granted =
        HandlerAction.ignored ∧
      firebaseOnValue (some [(k, msg)]) userLang true NotificationPermission.granted now =
        HandlerAction.ignored) := by
  by_cases hall : l = "all" <;> by_cases hu : l = userLang <;>
    simp [supabaseOnMessage, firebaseOnValue, supabaseLanguageDrop,
      firebaseLanguageDrop, hl, hne, hs, hall, hu, List.lookup,
      HandlerAction.alertAndAudio]

/-- C4 witness: a message tagged all with no sound flag is delivered with
audio on both bridges for a viewer configured for en. -/
theorem broadcast_language_filter_witness :
    ((supabaseOnMessage
        { msgId := some "1", title := "t", body := "b", language := some "all",
          sound := none } "en" true NotificationPermission.granted).alertAndAudio
      = true ↔ (("all" : String) = "all" ∨ ("all" : String) = "en")) ∧
    ((firebaseOnValue
        (some [("k0",
          { msgId := some "1", title := "t", body := "b", language := some "all",
            sound := none })]) "en" true NotificationPermission.granted
        0).alertAndAudio = true ↔
      (("all" : String) = "all" ∨ ("all" : String) = "en")) ∧
    (¬ (("all" : String) = "all" ∨ ("all" : String) = "en") →
      supabaseOnMessage
          { msgId := some "1", title := "t", body := "b", language := some "all",
            sound := none } "en" true NotificationPermission.granted =
        HandlerAction.ignored ∧
      firebaseOnValue
          (some [("k0",
            { msgId := some "1", title := "t", body := "b", language := some "all",
              sound := none })]) "en" true NotificationPermission.granted 0 =
        HandlerAction.ignored) :=
  broadcast_language_filter
    { msgId := some "1", title := "t", body := "b", language := some "all",
      sound := none } "en" "all" "k0" 0 rfl (by decide) (by decide)

/-- C9: a broadcast record whose language field is absent or empty is
delivered on both bridges (given support and granted permission) whatever
the viewer language is: the language filter only applies to a non-empty
tag. -/
theorem broadcast_missing_language_delivered (msg : BroadcastMessage)
    (userLang k : String) (now : ℤ) (h : strTruthy msg.language = false) :
    (supabaseOnMessage msg userLang true NotificationPermission.granted).delivers
      = true ∧
    (firebaseOnValue (some [(k, msg)]) userLang true NotificationPermission.granted
        now).delivers = true := by
  cases hml : msg.language with
  | none =>
    simp [supabaseOnMessage, firebaseOnValue, supabaseLanguageDrop,
      firebaseLanguageDrop, hml, List.lookup, HandlerAction.delivers]
  | some s =>
    have hse : s = "" := by
      rw [hml] at h
      simpa [strTruthy] using h
    simp [supabaseOnMessage, firebaseOnValue, supabaseLanguageDrop,
      firebaseLanguageDrop, hml, hse, List.lookup, HandlerAction.delivers]

/-- C9 witness: a record with no language field is delivered to a viewer
configured for ru on both bridges. -/
theorem broadcast_missing_language_delivered_witness :
    (supabaseOnMessage
        { msgId := some "2", title := "t", body := "b", language := none,
          sound := none } "ru" true NotificationPermission.granted).delivers
      = true ∧
    (firebaseOnValue
        (some [("k1",
          { msgId := some "2", title := "t", body := "b", language := none,
            sound := none })]) "ru" true NotificationPermission.granted
        0).delivers = true :=
  broadcast_missing_language_delivered
    { msgId := some "2", title := "t", body := "b", language := none,
      sound := none } "ru" "k1" 0 (by decide)

/-- C10: on a snapshot with pairwise distinct keys, the Firebase handler
behaves exactly as on the singleton snapshot holding only the entry under
the last key: every other record in the snapshot is ignored. -/
theorem firebase_snapshot_last_record_only
    (entries : List (String × BroadcastMessage)) (k : String)
    (msg : BroadcastMessage) (userLang : String) (supported : Bool)
    (perm : NotificationPermission) (now : ℤ)
    (hlast : entries.getLast? = some (k, msg))
    (hnodup : (entries.map Prod.fst).Nodup) :
    firebaseOnValue (some entries) userLang supported perm now =
      firebaseOnValue (some [(k, msg)]) userLang supported perm now := by
  have hkeys : (entries.map Prod.fst).getLast? = some k := by
    rw [List.getLast?_map, hlast]
    rfl
  have hlookup : entries.lookup k = some msg :=
    lookup_getLast_of_nodup entries k msg hlast hnodup
  rw [firebaseOnValue, firebaseOnValue]
  simp [hkeys, hlookup, List.lookup]

/-- C10 witness: a two-entry snapshot is handled exactly like the
singleton snapshot of its last entry. -/
theorem firebase_snapshot_last_record_only_witness :
    firebaseOnValue
        (some [("k1",
          { msgId := some "1", title := "first", body := "b1", language := none,
            sound := none }),
         ("k2",
          { msgId := some "2", title := "second", body := "b2", language := none,
            sound := none })]) "en" true NotificationPermission.granted 0 =
      firebaseOnValue
        (some [("k2",
          { msgId := some "2", title := "second", body := "b2", language := none,
            sound := none })]) "en" true NotificationPermission.granted 0 :=
  firebase_snapshot_last_record_only
    [("k1",
      { msgId := some "1", title := "first", body := "b1", language := none,
        sound := none }),
     ("k2",
      { msgId := some "2", title := "second", body := "b2", language := none,
        sound := none })] "k2"
    { msgId := some "2", title := "second", body := "b2", language := none,
      sound := none } "en" true NotificationPermission.granted 0 (by decide) (by decide)

/-- C5: on a transport error, a non-2xx response or a body parse failure,
the poller returns normally with the previous result set untouched, a
non-null error string, and loading cleared; nothing escapes to abort the
interval loop (the function is total). -/
theorem feedPoller_failure_preserves (cfg : FetchConfig) (outcome : FetchOutcome)
    (now : ℤ) (st : PollState) (h : outcome.isFailure = true) :
    (fetchEarthquakesFn cfg outcome now st).earthquakes = st.earthquakes ∧
    (∃ m, (fetchEarthquakesFn cfg outcome now st).error = some m) ∧
    (fetchEarthquakesFn cfg outcome now st).loading = false := by
  cases outcome with
  | transportError m => exact ⟨rfl, ⟨m, rfl⟩, rfl⟩
  | httpError s => exact ⟨rfl, ⟨"API error: " ++ s, rfl⟩, rfl⟩
  | parseError m => exact ⟨rfl, ⟨m, rfl⟩, rfl⟩
  | okBody b => simp [FetchOutcome.isFailure] at h

/-- C5 witness: a concrete failed poll cycle over a state holding one
previously fetched event. -/
theorem feedPoller_failure_preserves_witness :
    FetchOutcome.isFailure (FetchOutcome.transportError "Failed to fetch earthquakes")
        = true ∧
    ((fetchEarthquakesFn { timeRange := TimeRange.h24, minMagnitude := 2.5 }
        (FetchOutcome.transportError "Failed to fetch earthquakes") 0
        { earthquakes := [sampleMinorQuake], loading := false,
          error := none }).earthquakes = [sampleMinorQuake] ∧
      (∃ m, (fetchEarthquakesFn { timeRange := TimeRange.h24, minMagnitude := 2.5 }
        (FetchOutcome.transportError "Failed to fetch earthquakes") 0
        { earthquakes := [sampleMinorQuake], loading := false,
          error := none }).error = some m) ∧
      (fetchEarthquakesFn { timeRange := TimeRange.h24, minMagnitude := 2.5 }
        (FetchOutcome.transportError "Failed to fetch earthquakes") 0
        { earthquakes := [sampleMinorQuake], loading := false,
          error := none }).loading = false) :=
  ⟨rfl,
   feedPoller_failure_preserves { timeRange := TimeRange.h24, minMagnitude := 2.5 }
     (FetchOutcome.transportError "Failed to fetch earthquakes") 0
     { earthquakes := [sampleMinorQuake], loading := false, error := none } rfl⟩

/-- C6: a raw record is dropped by the normalizer exactly when it lacks a
properties block, a geometry block, or the coordinates field; a dropped
record leaves its well-formed siblings in place; and a well-formed record
missing only magnitude, place or time is kept with those fields defaulted
to 0, Unknown and the current time, while a missing identifier becomes the
synthetic composite of the raw time and coordinates. -/
theorem eventNormalizer_spec (now : ℤ) (f : RawFeature) (as bs : List RawFeature)
    (props : RawProperties) :
    (featureWellFormed f = false ↔
      (f.properties = none ∨ f.geometry = none ∨
        ∃ g, f.geometry = some g ∧ g.coordinates = none)) ∧
    (featureWellFormed f = false →
      normalizeBatch now (as ++ f :: bs) = normalizeBatch now (as ++ bs)) ∧
    (featureWellFormed f = true →
      normalizeBatch now (as ++ f :: bs) =
        normalizeBatch now as ++ normalizeRaw now f :: normalizeBatch now bs) ∧
    (f.properties = some props →
      (props.mag = none → (normalizeRaw now f).magnitude = 0) ∧
      (props.place = none → (normalizeRaw now f).place = "Unknown") ∧
      (props.time = none → (normalizeRaw now f).time = now) ∧
      (f.id = none → ∀ g, f.geometry = some g →
        (normalizeRaw now f).id = syntheticId props.time (g.coordinates.getD []))) := by
  obtain ⟨fid, fprops, fgeo⟩ := f
  refine ⟨?_, ?_, ?_, ?_⟩
  · cases fprops with
    | none => simp [featureWellFormed]
    | some p0 =>
      cases fgeo with
      | none => simp [featureWellFormed]
      | some g0 =>
        cases hc : g0.coordinates with
        | none => simp [featureWellFormed, hc]
        | some cs => simp [featureWellFormed, hc]
  · intro h
    simp [normalizeBatch, List.filter_append, List.filter_cons, h]
  · intro h
    simp [normalizeBatch, List.filter_append, List.filter_cons, h]
  · intro hp
    subst hp
    cases fgeo with
    | none =>
      refine ⟨?_, ?_, ?_, ?_⟩
      · intro h1
        simp [normalizeRaw, normalizeFeature, jsOrRat]
      · intro h1
        simp [normalizeRaw, normalizeFeature, jsOrStr]
      · intro h1
        simp [normalizeRaw, normalizeFeature, jsOrInt]
      · intro h1 g hg
        simp at hg
    | some g0 =>
      refine ⟨?_, ?_, ?_, ?_⟩
      · intro h1
        simp [normalizeRaw, normalizeFeature, jsOrRat, h1]
      · intro h1
        simp [normalizeRaw, normalizeFeature, jsOrStr, h1]
      · intro h1
        simp [normalizeRaw, normalizeFeature, jsOrInt, h1]
      · intro h1 g hg
        obtain rfl : g0 = g := by simpa using hg
        subst h1
        simp [normalizeRaw, normalizeFeature, jsOrStr]

/-- C6 witness: the bare record is kept next to a broken sibling, and its
magnitude, place, time and identifier take the documented defaults. -/
theorem eventNormalizer_spec_witness :
    (normalizeBatch 5 ([] ++ sampleBareFeature :: [sampleBrokenFeature]) =
      normalizeBatch 5 [] ++
        normalizeRaw 5 sampleBareFeature :: normalizeBatch 5 [sampleBrokenFeature]) ∧
    (normalizeRaw 5 sampleBareFeature).magnitude = 0 ∧
    (normalizeRaw 5 sampleBareFeature).place = "Unknown" ∧
    (normalizeRaw 5 sampleBareFeature).time = 5 :=
  ⟨(eventNormalizer_spec 5 sampleBareFeature [] [sampleBrokenFeature]
      { mag := none, place := none, time := none, url := none }).2.2.1 (by decide),
   ((eventNormalizer_spec 5 sampleBareFeature [] [sampleBrokenFeature]
      { mag := none, place := none, time := none, url := none }).2.2.2 rfl).1 rfl,
   ((eventNormalizer_spec 5 sampleBareFeature [] [sampleBrokenFeature]
      { mag := none, place := none, time := none, url := none }).2.2.2 rfl).2.1 rfl,
   ((eventNormalizer_spec 5 sampleBareFeature [] [sampleBrokenFeature]
      { mag := none, place := none, time := none, url := none }).2.2.2 rfl).2.2.1 rfl⟩

/-- The haversine intermediate is symmetric in the two points. -/
lemma havA_symm (lat1 lon1 lat2 lon2 : ℝ) :
    havA lat1 lon1 lat2 lon2 = havA lat2 lon2 lat1 lon1 := by
  simp only [havA]
  rw [show (lat1 - lat2) * Real.pi / 180 / 2 =
        -((lat2 - lat1) * Real.pi / 180 / 2) by ring,
    show (lon1 - lon2) * Real.pi / 180 / 2 =
        -((lon2 - lon1) * Real.pi / 180 / 2) by ring,
    Real.sin_neg, Real.sin_neg]
  ring

/-- The haversine intermediate vanishes on identical points. -/
lemma havA_self (lat lon : ℝ) : havA lat lon lat lon = 0 := by
  simp [havA]

/-- The haversine distance from a point to itself is zero. -/
lemma haversineDistance_self (lat lon : ℝ) :
    haversineDistance lat lon lat lon = 0 := by
  simp [haversineDistance, havA_self, atan2, Real.sqrt_zero, Real.sqrt_one,
    Real.arctan_zero]

/-- C7: region membership holds exactly when the haversine distance is at
most the radius (boundary inclusive); the distance is symmetric in the two
points; identical points are at distance zero and belong to every
nonnegative radius. -/
theorem geoFilter_withinRadius_spec (cLat cLon pLat pLon r : ℝ) :
    (withinRadius cLat cLon pLat pLon r ↔
      haversineDistance cLat cLon pLat pLon ≤ r) ∧
    haversineDistance cLat cLon pLat pLon = haversineDistance pLat pLon cLat cLon ∧
    haversineDistance pLat pLon pLat pLon = 0 ∧
    (0 ≤ r → withinRadius pLat pLon pLat pLon r) := by
  refine ⟨Iff.rfl, ?_, haversineDistance_self pLat pLon, ?_⟩
  · unfold haversineDistance
    rw [havA_symm]
  · intro hr
    unfold withinRadius
    rw [haversineDistance_self]
    exact hr

/-- C7 witness: a point is inside its own radius-one region. -/
theorem geoFilter_withinRadius_spec_witness :
    (0 : ℝ) ≤ 1 ∧ withinRadius 2 3 2 3 1 :=
  ⟨zero_le_one, (geoFilter_withinRadius_spec 2 3 2 3 1).2.2.2 zero_le_one⟩

/-- C8 witness: the amended theorem evaluated on a concrete subscribed
bridge state. -/
theorem realtimeBridge_guard_amended_witness :
    subscribeEffect true true { subscription := some 7, channelsCreated := 3 } =
      { subscription := some 7, channelsCreated := 3 } ∧
    (subscribeEffect true true
        (onStatus { subscription := some 7, channelsCreated := 3 }
          ChannelStatus.closedStatus)).channelsCreated = 4 :=
  ⟨(realtimeBridge_guard_amended { subscription := some 7, channelsCreated := 3 }
      true true).1 (by decide),
   (realtimeBridge_guard_amended { subscription := some 7, channelsCreated := 3 }
      true true).2.2.1⟩

end Valkyrris
